import Mathlib

/-!
Verification of the SATe command-line controller (src/sate/mainsate.py) and the
score-transformation component (src/util/transformscore.py), as a shallow
embedding in Lean 4.

Scores reported by external tree-search tools are compared only through the
order relation, so they are modelled as integers; Newick tree strings are
modelled as plain strings.
-/

abbrev Score := Int

abbrev TreeStr := String

/-! ## src/util/transformscore.py -/

/-- Embeds the class TransformScore (src/util/transformscore.py, lines 2-5):
its constructor stores the two arguments msa and ml_score. -/
structure TransformScore (α β : Type) where
  msa : α
  ml_score : β

/-- Embeds TransformScore.execute (src/util/transformscore.py, lines 7-16):
the body sets transformed_score to self.ml_score and returns it; the planned
composite-score computation is only present as comments in the source. -/
def TransformScore.execute (t : TransformScore α β) : β :=
  t.ml_score

/-- The parameter names of TransformScore constructor besides self
(src/util/transformscore.py, line 3: msa, ml_score). -/
def TransformScore.initParams : List String := ["msa", "ml_score"]

/-- Number of positional arguments accepted by the TransformScore constructor
besides self. -/
def TransformScore.initArity : Nat := TransformScore.initParams.length

/-- Number of positional arguments passed at the call site
src/sate/mainsate.py line 300: TransformScore(multilocus_dataset, score,
man_weights). -/
def transformScoreCallArgCount : Nat := 3

/-- Python call semantics for positional arguments: a call succeeds only when
the number of arguments equals the arity of the callee; otherwise the runtime
raises a TypeError. -/
def pyArityOk (arity nargs : Nat) : Bool :=
  nargs == arity

/-! ## SateJob state and the post-search update (src/sate/mainsate.py) -/

/-- The observable fields of the SateJob object that finish_sate_execution
reads and writes directly: tree_str and score (lines 321, 373-374, 402, 418)
and best_tree_str and best_score (lines 375-377). -/
structure JobState where
  tree_str : TreeStr
  score : Score
  best_tree_str : TreeStr
  best_score : Score
deriving DecidableEq, Repr

/-- Embeds src/sate/mainsate.py lines 373-377: after the post-search job
returns (post_score, post_tree), the code sets job.tree_str and job.score
unconditionally, and then updates job.best_tree_str and job.best_score only
when post_score is strictly greater than job.best_score. -/
def postSearchUpdate (j : JobState) (post_score : Score) (post_tree : TreeStr) : JobState :=
  let j1 := { j with tree_str := post_tree, score := post_score }
  if post_score > j.best_score then
    { j1 with best_tree_str := post_tree, best_score := post_score }
  else
    j1

/-- Modelled from the spec: SateJob.store_optimum_results is called at
src/sate/mainsate.py lines 325-328 but its body is not under src/. The spec
states that the best-known score is updated only when a newly computed score
strictly improves on it, so the model records (new_score, new_tree) as the
best exactly when new_score strictly exceeds the stored best score. -/
def store_optimum_results (j : JobState) (new_score : Score) (new_tree : TreeStr) : JobState :=
  if new_score > j.best_score then
    { j with best_tree_str := new_tree, best_score := new_score }
  else
    j

/-- The two kinds of events in a run that touch the best-known record: the
store_optimum_results call made after the initial search (lines 325-328) and
during the loop, and the post-search acceptance step (lines 373-377). -/
inductive BestStep where
  | storeOptimum (s : Score) (t : TreeStr)
  | postSearch (s : Score) (t : TreeStr)
deriving DecidableEq, Repr

/-- Apply one best-record event to the job state. -/
def applyBestStep (j : JobState) : BestStep → JobState
  | .storeOptimum s t => store_optimum_results j s t
  | .postSearch s t => postSearchUpdate j s t

/-- A whole run, viewed through the best-known record: the sequence of
candidate (score, tree) results produced by the iterations and the optional
post-search, folded over the job state. -/
def runBestSteps (j : JobState) (steps : List BestStep) : JobState :=
  steps.foldl applyBestStep j

/-- The score of the candidate carried by a step. -/
def BestStep.candidateScore : BestStep → Score
  | .storeOptimum s _ => s
  | .postSearch s _ => s

/-! ## killed_handler (src/sate/mainsate.py, lines 132-146) -/

/-- The process-wide _RunningJobs reference (src/sate/mainsate.py line 47):
None, a single Job, or a list of Jobs. -/
inductive RunningJobs (J : Type) where
  | pynone
  | single (j : J)
  | jlist (js : List J)
deriving DecidableEq, Repr

/-- Python truthiness of the _RunningJobs reference as tested by the
statement at line 134: None is falsy, an object is truthy, a list is truthy
exactly when it is nonempty. -/
def RunningJobs.truthy : RunningJobs J → Bool
  | .pynone => false
  | .single _ => true
  | .jlist js => !js.isEmpty

/-- The isinstance(_RunningJobs, list) test at line 136. -/
def RunningJobs.isList : RunningJobs J → Bool
  | .jlist _ => true
  | _ => false

/-- The jobs referenced by the _RunningJobs reference. -/
def RunningJobs.referenced : RunningJobs J → List J
  | .pynone => []
  | .single j => [j]
  | .jlist js => js

/-- What a single invocation of killed_handler does: the jobs it calls
kill() on, the warnings it emits through the messenger, and whether it
terminates the process (sys.exit at line 146). -/
structure HandlerResult (J : Type) where
  killed : List J
  warnings : List String
  exited : Bool
deriving DecidableEq, Repr

/-- Embeds killed_handler (src/sate/mainsate.py lines 132-146): when the
reference is truthy it emits a warning and calls kill() on each referenced
job (iterating when the reference is a list), emitting a warning per kill;
when falsy it emits the no-jobs warning; in all cases it calls sys.exit. -/
def killed_handler (r : RunningJobs J) : HandlerResult J :=
  if r.truthy then
    if r.isList then
      { killed := r.referenced
        warnings := "signal killed_handler called. Killing running jobs...\n" ::
          r.referenced.map (fun _ => "kill called...\n")
        exited := true }
    else
      { killed := r.referenced
        warnings := ["signal killed_handler called. Killing running jobs...\n",
          "kill called...\n"]
        exited := true }
  else
    { killed := []
      warnings := ["signal killed_handler called with no jobs running. Exiting.\n"]
      exited := true }

/-! ## Signal handler save and restore (src/sate/mainsate.py, lines 245-248 and 425-431) -/

/-- The signals finish_sate_execution installs a handler for (line 246),
plus one representative other signal left untouched. -/
inductive Sig where
  | sigterm
  | sigabrt
  | sigint
  | sigusr1
deriving DecidableEq, Repr

/-- A Python-visible signal disposition: SIG_DFL, SIG_IGN, the
killed_handler function, some other Python handler, or None (returned by the
runtime when the existing handler was not installed from Python). -/
inductive Disposition where
  | dfl
  | ign
  | killedHandlerFn
  | py (n : Nat)
  | pynone
deriving DecidableEq, Repr

/-- The per-process signal-handler table. -/
def SigState := Sig → Disposition

/-- signal.signal: installs a disposition for a signal and returns the
previous one. -/
def signalSet (s : SigState) (sig : Sig) (d : Disposition) : SigState × Disposition :=
  (fun x => if x = sig then d else s x, s sig)

/-- The three signals hooked at src/sate/mainsate.py line 246, in order. -/
def hookedSigs : List Sig := [.sigterm, .sigabrt, .sigint]

/-- Embeds lines 245-248: for each hooked signal, install killed_handler and
record (signal, previous handler) in prev_signals. -/
def installKilledHandlers (s0 : SigState) : SigState × List (Sig × Disposition) :=
  hookedSigs.foldl
    (fun acc sig =>
      let r := signalSet acc.1 sig .killedHandlerFn
      (r.1, acc.2 ++ [(sig, r.2)]))
    (s0, [])

/-- Embeds the finally block at lines 425-431: for each saved pair, restore
the previous handler, substituting SIG_DFL when the saved handler was None. -/
def restorePrevHandlers (s : SigState) (prevs : List (Sig × Disposition)) : SigState :=
  prevs.foldl
    (fun st p =>
      (signalSet st p.1 (if p.2 = .pynone then .dfl else p.2)).1)
    s

/-- The signal-state effect of one call to finish_sate_execution: handlers
are installed before the try block and the finally block restores them on
both the normal and the exceptional exit path (bodyRaises tells which path
was taken; the body itself never changes the handler table). -/
def finishSignalBracket (s0 : SigState) (bodyRaises : Bool) : SigState × Bool :=
  let inst := installKilledHandlers s0
  (restorePrevHandlers inst.1 inst.2, bodyRaises)

/-! ## run_sate_from_config (src/sate/mainsate.py, lines 433-479) -/

/-- How run_sate_from_config ends: either the exception from the body
propagates, or the function returns a pair whose first component is the
directory path (or None) and whose second records whether the TempFS
instance is returned. -/
inductive RunOutcome where
  | raised
  | returned (dir : Option String) (fsReturned : Bool)
deriving DecidableEq, Repr

/-- The observable outcome of run_sate_from_config: the set of directories
that still exist, and either the returned pair or a propagated exception. -/
structure RunSateResult where
  liveDirs : List String
  outcome : RunOutcome
deriving DecidableEq, Repr

/-- The name of the top-level temporary directory created at line 464
(sate_team.temp_fs.create_top_level_temp). -/
def topTempDir : String := "tempdir"

/-- Embeds run_sate_from_config (lines 433-479) as a function of the
keeptemp option and of whether finish_sate_execution raises: the top-level
temporary directory is created, delete_dir is set to not keeptemp (line
462), the finally block removes the directory when delete_dir holds (lines
473-475), and on normal completion the function returns (None, None) when
delete_dir holds and (temporaries_dir, temp_fs) otherwise (lines 476-479);
the second component of the returned pair records whether the TempFS
instance is returned. An exception from the body propagates after the
finally block runs. -/
def run_sate_from_config (keeptemp : Bool) (bodyRaises : Bool) (fs0 : List String) : RunSateResult :=
  let fs1 := topTempDir :: fs0
  let delete_dir := !keeptemp
  let fs2 := if delete_dir then fs1.erase topTempDir else fs1
  if bodyRaises then
    { liveDirs := fs2, outcome := .raised }
  else if delete_dir then
    { liveDirs := fs2, outcome := .returned none false }
  else
    { liveDirs := fs2, outcome := .returned (some topTempDir) true }

/-! ## The raxml_search_after configuration check (src/sate/mainsate.py, lines 591-593) -/

/-- The Python str.upper method on one character: ASCII lowercase letters
are mapped to uppercase, everything else is unchanged. -/
def pyUpperChar (c : Char) : Char :=
  if 'a' ≤ c ∧ c ≤ 'z' then Char.ofNat (c.toNat - 32) else c

/-- The Python str.upper method, as used at src/sate/mainsate.py line 592
(tree-estimator names are ASCII). -/
def pyUpper (s : String) : String :=
  String.mk (s.data.map pyUpperChar)

/-- The configuration fields of sate_main that govern its tail after the
configuration has been assembled (lines 591-624). -/
structure MainConfig where
  raxml_search_after : Bool
  tree_estimator : String
  exportconfig : Option String
  input : Option String
deriving DecidableEq, Repr

/-- The ways the tail of sate_main can end. -/
inductive MainOutcome where
  | configError (msg : String)
  | exportExit
  | inputError
  | ran
deriving DecidableEq, Repr

/-- Embeds the tail of sate_main (lines 591-624): first the
raxml_search_after compatibility check (sys.exit at line 593), then the
exportconfig early return (lines 595-603), then the missing-input check
(lines 605-606), and finally the call into run_sate_from_config which is
where jobs are first created. The second component counts jobs created
before the function ends; jobsIfRun is how many the full run would create. -/
def sate_main_tail (c : MainConfig) (jobsIfRun : Nat) : MainOutcome × Nat :=
  if c.raxml_search_after && !(pyUpper c.tree_estimator == "FASTTREE") then
    (.configError "ERROR: the raxml_search_after option is only supported when the tree_estimator is FastTree", 0)
  else if c.exportconfig.isSome then
    (.exportExit, 0)
  else if c.input.isNone then
    (.inputError, 0)
  else
    (.ran, jobsIfRun)

/-! ## Starting-tree file processing (src/sate/mainsate.py, lines 180-200) -/

/-- The multiple-trees warning emitted at line 197. -/
def multipleTreesWarning (n : Nat) (tree_file : String) : String :=
  toString n ++ " starting trees found in \"" ++ tree_file ++ "\". The first tree will be used."

/-- Embeds lines 196-198 given the parsed tree list: when more than one tree
was read, the warning naming the number of trees is emitted (non-fatally);
then starting_tree is set to tree_list[0], which raises IndexError when the
list is empty. Returns the chosen starting tree and the warnings emitted. -/
def chooseStartingTree (tree_list : List TreeStr) (tree_file : String) :
    Except String (TreeStr × List String) :=
  let warns := if tree_list.length > 1 then [multipleTreesWarning tree_list.length tree_file] else []
  match tree_list with
  | [] => .error "IndexError"
  | t :: _ => .ok (t, warns)

/-! ## Control flow of the finish_sate_execution try block (src/sate/mainsate.py, lines 157-431) -/

/-- The commandline options consulted by finish_sate_execution. -/
structure Options where
  two_phase : Bool
  aligned : Bool
  keeptemp : Bool
  keepalignmenttemps : Bool
  raxml_search_after : Bool
deriving DecidableEq, Repr

/-- One run of finish_sate_execution, with the results the external tools
would return supplied as data: trees is the parsed content of the starting
tree file (None when no treefile option was given), lociAligned holds
is_aligned() for each locus of the multilocus dataset, and initResult and
postResult are the (score, tree) pairs the initial search job and the
post-search job return. -/
structure FlowInputs where
  opts : Options
  trees : Option (List TreeStr)
  lociAligned : List Bool
  initResult : Score × TreeStr
  postResult : Score × TreeStr
deriving DecidableEq, Repr

/-- The jobs created and phases run by one call of finish_sate_execution:
the number of alignment jobs put on the queue in the initial-alignment block
(lines 263-272), the number of initial tree-search jobs (lines 288-296),
whether the SATe refinement loop was entered (job.run, line 335), and the
number of post-search jobs (lines 358-367). -/
structure Trace where
  alignJobs : Nat
  treeSearchJobs : Nat
  sateLoopRun : Bool
  postJobs : Nat
deriving DecidableEq, Repr

/-- How the call ends: normal return, TypeError from a Python call with the
wrong number of arguments, IndexError from indexing an empty list, or
UnboundLocalError from reading a local variable on a path that never
assigned it. -/
inductive FlowOutcome where
  | ok
  | typeError
  | indexError
  | unboundLocalError
deriving DecidableEq, Repr

/-- Embeds the control flow of finish_sate_execution (lines 157-431) that
determines which jobs are created. Lines 180-198 read the starting trees and
pick tree_list[0] (IndexError on an empty file). Line 234 narrows
options.aligned to whether every locus is aligned. The branch at line 251
uses the supplied starting tree directly when two_phase is off and a
treefile was given; on that path no job is created before line 314, where
sate_config_dict is assigned from man_weights, a local that is only bound
at line 298 inside the other branch, so the read raises UnboundLocalError
and the SateJob is never constructed: the SATe loop (line 335) and the
post-search (lines 343-377) never run there. Otherwise the else branch
submits one alignment job per locus when two_phase is on or the data is
unaligned (line 257), then one initial tree-search job, and then calls
TransformScore(multilocus_dataset, score, man_weights).execute() (line 300)
with three constructor arguments against a two-parameter constructor, so
that call raises TypeError and the rest of the try block is skipped. The
code below line 314 that would run the SATe loop unless two_phase is on
(lines 330-335) and the post-search when raxml_search_after is on (lines
343-367) is kept under the arity check for fidelity, although no path
reaches it. -/
def finish_flow (i : FlowInputs) : Trace × FlowOutcome :=
  match i.trees with
  | some [] => (⟨0, 0, false, 0⟩, .indexError)
  | _ =>
    let hasTree := i.trees.isSome
    let aligned := i.opts.aligned && i.lociAligned.all (· = true)
    if !i.opts.two_phase && hasTree then
      (⟨0, 0, false, 0⟩, .unboundLocalError)
    else
      let alignJobs := if i.opts.two_phase || !aligned then i.lociAligned.length else 0
      if pyArityOk TransformScore.initArity transformScoreCallArgCount then
        let sateRun := !i.opts.two_phase
        let postJobs := if !i.opts.two_phase && i.opts.raxml_search_after then 1 else 0
        (⟨alignJobs, 1, sateRun, postJobs⟩, .ok)
      else
        (⟨alignJobs, 1, false, 0⟩, .typeError)

/-! ## Helper lemmas -/

lemma store_optimum_results_best_score (j : JobState) (s : Score) (t : TreeStr) :
    (store_optimum_results j s t).best_score = (if s > j.best_score then s else j.best_score) := by
  unfold store_optimum_results
  split <;> rfl

lemma postSearchUpdate_best_score (j : JobState) (s : Score) (t : TreeStr) :
    (postSearchUpdate j s t).best_score = (if s > j.best_score then s else j.best_score) := by
  unfold postSearchUpdate
  split <;> rfl

lemma postSearchUpdate_best_tree_str (j : JobState) (s : Score) (t : TreeStr) :
    (postSearchUpdate j s t).best_tree_str = (if s > j.best_score then t else j.best_tree_str) := by
  unfold postSearchUpdate
  split <;> rfl

lemma applyBestStep_best_le (j : JobState) (st : BestStep) :
    j.best_score ≤ (applyBestStep j st).best_score := by
  cases st with
  | storeOptimum s t =>
      show j.best_score ≤ (store_optimum_results j s t).best_score
      rw [store_optimum_results_best_score]
      by_cases h : s > j.best_score
      · rw [if_pos h]; exact le_of_lt h
      · rw [if_neg h]
  | postSearch s t =>
      show j.best_score ≤ (postSearchUpdate j s t).best_score
      rw [postSearchUpdate_best_score]
      by_cases h : s > j.best_score
      · rw [if_pos h]; exact le_of_lt h
      · rw [if_neg h]

lemma runBestSteps_best_le (j : JobState) (steps : List BestStep) :
    j.best_score ≤ (runBestSteps j steps).best_score := by
  induction steps generalizing j with
  | nil => exact le_refl _
  | cons st rest ih =>
      calc j.best_score ≤ (applyBestStep j st).best_score := applyBestStep_best_le j st
        _ ≤ (runBestSteps (applyBestStep j st) rest).best_score := ih _

/-! ## Claim theorems -/

/-- C1: the best-known score is monotonically non-decreasing across any
sequence of best-record updates of the run, and each update (the
store_optimum_results calls and the post-search step at lines 373-377 of
src/sate/mainsate.py) changes best_score and best_tree_str only when the
newly computed score strictly exceeds the previous best_score, leaving both
unchanged otherwise. -/
theorem best_score_monotone_strict_improvement (j : JobState) (steps : List BestStep)
    (s : Score) (t : TreeStr) :
    j.best_score ≤ (runBestSteps j steps).best_score ∧
    (postSearchUpdate j s t).best_score = (if s > j.best_score then s else j.best_score) ∧
    (postSearchUpdate j s t).best_tree_str = (if s > j.best_score then t else j.best_tree_str) ∧
    (store_optimum_results j s t).best_score = (if s > j.best_score then s else j.best_score) ∧
    (store_optimum_results j s t).best_tree_str = (if s > j.best_score then t else j.best_tree_str) := by
  refine ⟨runBestSteps_best_le j steps, postSearchUpdate_best_score j s t,
    postSearchUpdate_best_tree_str j s t, store_optimum_results_best_score j s t, ?_⟩
  unfold store_optimum_results
  split <;> rfl

/-- C2: TransformScore(msa, s).execute() returns the raw score s unchanged
for every dataset msa and score s; execute is a pure function of the two
stored constructor arguments. -/
theorem transformScore_execute_identity {α β : Type} (msa : α) (s : β) :
    (TransformScore.mk msa s).execute = s := rfl

/-- C6: whenever killed_handler runs, it calls kill() on exactly the jobs
referenced by _RunningJobs (each element when the reference is a list, the
single job otherwise, nothing when no reference is set), emits at least one
diagnostic, and terminates the process. -/
theorem killed_handler_kills_referenced {J : Type} (r : RunningJobs J) :
    (killed_handler r).killed = r.referenced ∧
    (killed_handler r).warnings ≠ [] ∧
    (killed_handler r).exited = true ∧
    (killed_handler RunningJobs.pynone (J := J)).killed = [] := by
  refine ⟨?_, ?_, ?_, rfl⟩
  · cases r with
    | pynone => rfl
    | single j => rfl
    | jlist js => cases js <;> rfl
  · cases r with
    | pynone => simp [killed_handler, RunningJobs.truthy]
    | single j => simp [killed_handler, RunningJobs.truthy, RunningJobs.isList]
    | jlist js => cases js <;> simp [killed_handler, RunningJobs.truthy, RunningJobs.isList]
  · cases r with
    | pynone => rfl
    | single j => rfl
    | jlist js => cases js <;> rfl

/-- C5 counterexample input: job state with current score 5, best score 10. -/
def c5Job : JobState := { tree_str := "T0", score := 5, best_tree_str := "B", best_score := 10 }

/-- C5 counterexample: a post-search score of 3 does not exceed the best
score 10, yet the code replaces job.score (the score written to the score
stream at line 418) and job.tree_str with the post-search result, so the
final reported tree and score are affected by a non-improving post-search. -/
theorem postSearch_nonimproving_still_adopted :
    ¬ ((3 : Score) > c5Job.best_score) ∧
    (postSearchUpdate c5Job 3 "P").score = 3 ∧
    (postSearchUpdate c5Job 3 "P").score ≠ c5Job.score ∧
    (postSearchUpdate c5Job 3 "P").tree_str = "P" ∧
    (postSearchUpdate c5Job 3 "P").tree_str ≠ c5Job.tree_str := by
  refine ⟨by decide, rfl, by decide, rfl, by decide⟩

/-- C5 amended: the post-search result always replaces the current
tree and score (job.tree_str and job.score, which are what the run finally
reports); only the best-known record job.best_tree_str and job.best_score is
guarded, and it is updated exactly when the post-search score strictly
exceeds the previous best score. -/
theorem postSearch_adoption_rule (j : JobState) (ps : Score) (pt : TreeStr) :
    (postSearchUpdate j ps pt).score = ps ∧
    (postSearchUpdate j ps pt).tree_str = pt ∧
    (postSearchUpdate j ps pt).best_score = (if ps > j.best_score then ps else j.best_score) ∧
    (postSearchUpdate j ps pt).best_tree_str = (if ps > j.best_score then pt else j.best_tree_str) := by
  refine ⟨?_, ?_, postSearchUpdate_best_score j ps pt, postSearchUpdate_best_tree_str j ps pt⟩
  · unfold postSearchUpdate
    split <;> rfl
  · unfold postSearchUpdate
    split <;> rfl

/-- C3: in every run that reaches the initial tree search (two_phase on, or
no starting tree file), the TransformScore call at line 300 passes three
constructor arguments to the two-parameter constructor, so it raises
TypeError after the single initial tree-search job has returned. -/
theorem initial_search_transform_typeError (i : FlowInputs)
    (h1 : i.opts.two_phase = true ∨ i.trees = none)
    (h2 : i.trees ≠ some []) :
    (finish_flow i).2 = FlowOutcome.typeError ∧
    (finish_flow i).1.treeSearchJobs = 1 ∧
    TransformScore.initArity = 2 ∧
    transformScoreCallArgCount = 3 ∧
    pyArityOk TransformScore.initArity transformScoreCallArgCount = false := by
  have hmain : (finish_flow i).2 = FlowOutcome.typeError ∧ (finish_flow i).1.treeSearchJobs = 1 := by
    cases htr : i.trees with
    | none =>
        simp [finish_flow, htr, pyArityOk, TransformScore.initArity, TransformScore.initParams,
          transformScoreCallArgCount]
    | some ts =>
        cases ts with
        | nil => exact absurd htr h2
        | cons t rest =>
            have h1c : i.opts.two_phase = true := by
              rcases h1 with h | h
              · exact h
              · rw [htr] at h
                cases h
            simp [finish_flow, htr, h1c, pyArityOk, TransformScore.initArity,
              TransformScore.initParams, transformScoreCallArgCount]
  exact ⟨hmain.1, hmain.2, rfl, rfl, rfl⟩

/-- A concrete run with no starting tree file and unaligned single-locus
data: it reaches the initial tree search. -/
def noTreeRun : FlowInputs where
  opts := { two_phase := false, aligned := false, keeptemp := false, keepalignmenttemps := false, raxml_search_after := false }
  trees := none
  lociAligned := [false]
  initResult := (7, "(a,b);")
  postResult := (9, "(b,a);")

/-- C3 witness: the TypeError conclusion evaluated on the concrete run with
no starting tree. -/
theorem initial_search_transform_typeError_witness :
    (noTreeRun.opts.two_phase = true ∨ noTreeRun.trees = none) ∧
    noTreeRun.trees ≠ some [] ∧
    ((finish_flow noTreeRun).2 = FlowOutcome.typeError ∧
      (finish_flow noTreeRun).1.treeSearchJobs = 1 ∧
      TransformScore.initArity = 2 ∧
      transformScoreCallArgCount = 3 ∧
      pyArityOk TransformScore.initArity transformScoreCallArgCount = false) :=
  ⟨Or.inr rfl, by decide,
    initial_search_transform_typeError noTreeRun (Or.inr rfl) (by decide)⟩

/-- The C4 scenario: single-locus input, already aligned, a starting tree
supplied, and the two-phase option requested. -/
def twoPhaseScenario : FlowInputs where
  opts := { two_phase := true, aligned := true, keeptemp := false, keepalignmenttemps := false, raxml_search_after := false }
  trees := some ["(a,b);"]
  lociAligned := [true]
  initResult := (7, "(c,d);")
  postResult := (9, "(d,c);")

/-- C4 counterexample: in the two-phase scenario with a single aligned locus
and a supplied starting tree, the condition at line 257 forces the initial
alignment, so an alignment job is submitted, and the run then aborts with
TypeError at the score-transform call instead of terminating normally with
the supplied tree. -/
theorem two_phase_scenario_counterexample :
    (finish_flow twoPhaseScenario).1.alignJobs = 1 ∧
    ¬ ((finish_flow twoPhaseScenario).1.alignJobs = 0) ∧
    ¬ ((finish_flow twoPhaseScenario).2 = FlowOutcome.ok) := by
  refine ⟨rfl, by decide, by decide⟩

/-- C4 amended: when the two-phase option is requested (whatever the aligned
state and the supplied starting tree), the supplied tree is not used: one
alignment job per locus and one initial tree-search job are submitted, the
refinement loop and the post-search never run, and the call aborts with
TypeError at the score-transform invocation. -/
theorem two_phase_run_flow (i : FlowInputs)
    (h1 : i.opts.two_phase = true)
    (h2 : i.trees ≠ some []) :
    (finish_flow i).1.alignJobs = i.lociAligned.length ∧
    (finish_flow i).1.treeSearchJobs = 1 ∧
    (finish_flow i).1.sateLoopRun = false ∧
    (finish_flow i).1.postJobs = 0 ∧
    (finish_flow i).2 = FlowOutcome.typeError := by
  cases htr : i.trees with
  | none =>
      simp [finish_flow, htr, h1, pyArityOk, TransformScore.initArity,
        TransformScore.initParams, transformScoreCallArgCount]
  | some ts =>
      cases ts with
      | nil => exact absurd htr h2
      | cons t rest =>
          simp [finish_flow, htr, h1, pyArityOk, TransformScore.initArity,
            TransformScore.initParams, transformScoreCallArgCount]

/-- C4 witness: the amended flow facts evaluated on the concrete two-phase
scenario. -/
theorem two_phase_run_flow_witness :
    twoPhaseScenario.opts.two_phase = true ∧
    twoPhaseScenario.trees ≠ some [] ∧
    ((finish_flow twoPhaseScenario).1.alignJobs = twoPhaseScenario.lociAligned.length ∧
      (finish_flow twoPhaseScenario).1.treeSearchJobs = 1 ∧
      (finish_flow twoPhaseScenario).1.sateLoopRun = false ∧
      (finish_flow twoPhaseScenario).1.postJobs = 0 ∧
      (finish_flow twoPhaseScenario).2 = FlowOutcome.typeError) :=
  ⟨rfl, by decide, two_phase_run_flow twoPhaseScenario rfl (by decide)⟩

/-- C7: finish_sate_execution saves the previous SIGTERM, SIGABRT and SIGINT
handlers before installing killed_handler and, on both the normal and the
exceptional exit path, the finally block restores each saved handler (SIG_DFL
where the saved handler was None); hence whenever the surrounding process
had real (non-None) dispositions, the signal-handler table after the call
equals the table before it. -/
theorem finish_signal_handlers_restored (s0 : SigState) (bodyRaises : Bool)
    (h : ∀ sig ∈ hookedSigs, s0 sig ≠ Disposition.pynone) :
    (finishSignalBracket s0 bodyRaises).1 = s0 := by
  have ht := h .sigterm (by simp [hookedSigs])
  have ha := h .sigabrt (by simp [hookedSigs])
  have hi := h .sigint (by simp [hookedSigs])
  funext sig
  cases sig <;>
    simp [finishSignalBracket, installKilledHandlers, restorePrevHandlers, hookedSigs,
      signalSet, ht, ha, hi]

/-- A concrete signal table where every disposition is SIG_DFL. -/
def allDflSigState : SigState := fun _ => Disposition.dfl

/-- C7 witness: on the all-SIG_DFL table the exceptional exit path of
finish_sate_execution leaves the table unchanged. -/
theorem finish_signal_handlers_restored_witness :
    (∀ sig ∈ hookedSigs, allDflSigState sig ≠ Disposition.pynone) ∧
    (finishSignalBracket allDflSigState true).1 = allDflSigState :=
  ⟨by decide, finish_signal_handlers_restored allDflSigState true (by decide)⟩

/-- C8: run_sate_from_config removes the top-level temporaries directory on
both the normal and the exceptional exit path exactly when keeptemp is
false; on normal completion it returns (None, None) when keeptemp is false,
and (temporaries_dir, temp_fs) when keeptemp is true. -/
theorem run_sate_tempdir_policy (keeptemp bodyRaises : Bool) (fs0 : List String)
    (h : topTempDir ∉ fs0) :
    (topTempDir ∈ (run_sate_from_config keeptemp bodyRaises fs0).liveDirs ↔ keeptemp = true) ∧
    (run_sate_from_config keeptemp false fs0).outcome =
      (if keeptemp then RunOutcome.returned (some topTempDir) true else RunOutcome.returned none false) ∧
    (run_sate_from_config keeptemp true fs0).outcome = RunOutcome.raised := by
  cases keeptemp <;> cases bodyRaises <;>
    simp [run_sate_from_config, List.erase_cons_head, h]

/-- C8 witness: on an empty starting filesystem, with keeptemp false and a
normally completing body, the directory is gone and (None, None) returned. -/
theorem run_sate_tempdir_policy_witness :
    topTempDir ∉ ([] : List String) ∧
    ((topTempDir ∈ (run_sate_from_config false false []).liveDirs ↔ false = true) ∧
      (run_sate_from_config false false []).outcome =
        (if false then RunOutcome.returned (some topTempDir) true else RunOutcome.returned none false) ∧
      (run_sate_from_config false true []).outcome = RunOutcome.raised) :=
  ⟨by decide, run_sate_tempdir_policy false false [] (by decide)⟩

/-- C9: when raxml_search_after is requested and the configured tree
estimator is not FastTree (case-insensitively), the tail of sate_main ends
in the configuration-error exit of line 593 with zero jobs created,
whatever the rest of the configuration and however many jobs a full run
would have created. -/
theorem raxml_search_after_config_check (c : MainConfig) (jobsIfRun : Nat)
    (h1 : c.raxml_search_after = true)
    (h2 : pyUpper c.tree_estimator ≠ "FASTTREE") :
    (sate_main_tail c jobsIfRun).1 =
      MainOutcome.configError "ERROR: the raxml_search_after option is only supported when the tree_estimator is FastTree" ∧
    (sate_main_tail c jobsIfRun).2 = 0 := by
  constructor <;> simp [sate_main_tail, h1, h2]

/-- A configuration requesting the post-search with a RAxML main-loop tree
estimator. -/
def raxmlAfterRaxmlConfig : MainConfig where
  raxml_search_after := true
  tree_estimator := "raxml"
  exportconfig := none
  input := some "data.fasta"

/-- C9 witness: the configuration-error exit evaluated on the concrete
incompatible configuration. -/
theorem raxml_search_after_config_check_witness :
    raxmlAfterRaxmlConfig.raxml_search_after = true ∧
    pyUpper raxmlAfterRaxmlConfig.tree_estimator ≠ "FASTTREE" ∧
    ((sate_main_tail raxmlAfterRaxmlConfig 5).1 =
        MainOutcome.configError "ERROR: the raxml_search_after option is only supported when the tree_estimator is FastTree" ∧
      (sate_main_tail raxmlAfterRaxmlConfig 5).2 = 0) :=
  ⟨rfl, by decide, raxml_search_after_config_check raxmlAfterRaxmlConfig 5 rfl (by decide)⟩

/-- C10: when the starting tree file contains more than one tree, reading it
succeeds (the warning is non-fatal), the chosen starting tree is the first
tree of the list, and exactly one warning reporting the number of trees
found is emitted; the remaining trees do not influence the result. -/
theorem multiple_starting_trees_first_used (t1 t2 : TreeStr) (rest : List TreeStr) (fname : String) :
    chooseStartingTree (t1 :: t2 :: rest) fname =
      Except.ok (t1, [multipleTreesWarning (t1 :: t2 :: rest).length fname]) := by
  unfold chooseStartingTree
  have hlen : (t1 :: t2 :: rest).length > 1 := by simp
  rw [if_pos hlen]
